import Mathlib

set_option maxRecDepth 100000

/-!
Verification of `src/scripts/test-template-validation.py`.

The script compiles four regular-expression patterns with Python's `re`
module, runs each against literal lists of valid and invalid example
strings via `re.match` (anchored at the start of the string), prints a
report, and exits 0 iff every example behaved as expected.

We shallowly embed the script: regular expressions become an inductive
syntax `RE` (covering exactly the constructs the four patterns use),
Python's `re.match` becomes the executable matcher `runRE`/`reMatch`,
and `test_pattern`/`main` become pure Lean functions that return the
printed lines together with their boolean / exit-code result.
-/

namespace TemplateValidation

/-- Regular-expression syntax, covering the constructs used by the four
patterns in the script: literal characters, character classes given as
lists of inclusive ranges (e.g. `[a-zA-Z0-9-]`), the `^` and `$` anchors,
concatenation, alternation, and `+` applied to a character class
(`\d+`).  `?` and the bounded repetition `{0,37}` are expressed via
`opt` and `repMax` below. -/
inductive RE : Type where
  | eps : RE
  | lit : Char → RE
  | cls : List (Char × Char) → RE
  | caret : RE
  | dollar : RE
  | seq : RE → RE → RE
  | alt : RE → RE → RE
  | plus1 : List (Char × Char) → RE
deriving Repr

/-- Membership of a character in a class given as inclusive ranges
(a singleton member such as the literal `-` of `[a-zA-Z0-9-]` is the
range `('-', '-')`). -/
def inClass (ranges : List (Char × Char)) (c : Char) : Bool :=
  ranges.any (fun r => r.1 ≤ c && c ≤ r.2)

/-- The regex `r?`: one copy of `r` or nothing. -/
def opt (r : RE) : RE := .alt r .eps

/-- Bounded repetition, `repMax n r` being the regex written
with braces as r-brace-0,n-brace: at most `n`
consecutive copies of `r`. -/
def repMax : Nat → RE → RE
  | 0, _ => .eps
  | n + 1, r => .alt (.seq r (repMax n r)) .eps

/-- One-or-more repetition of a character class (`\d+`): every state
reachable by consuming at least one class character from the front of
the subject. -/
def runPlus (rs : List (Char × Char)) : List Char → List (Bool × List Char)
  | [] => []
  | d :: rest =>
    if inClass rs d then (false, rest) :: runPlus rs rest else []

/-- Executable matcher, modelling Python's backtracking `re` engine.
`runRE r atStart s` returns every state `(atStart', s')` reachable by
matching `r` against a prefix of `s`, where the boolean flag records
whether we are still at position 0 of the subject (the `^` anchor, with
`re.MULTILINE` off, succeeds only there) and `s'` is the unconsumed
suffix.  The `$` anchor, as in Python without `re.MULTILINE`, succeeds
at the end of the string or just before a single trailing newline. -/
def runRE : RE → Bool → List Char → List (Bool × List Char)
  | .eps, b, s => [(b, s)]
  | .lit c, _, s =>
    match s with
    | [] => []
    | d :: rest => if d = c then [(false, rest)] else []
  | .cls rs, _, s =>
    match s with
    | [] => []
    | d :: rest => if inClass rs d then [(false, rest)] else []
  | .caret, b, s => if b then [(b, s)] else []
  | .dollar, b, s => if s = [] ∨ s = ['\n'] then [(b, s)] else []
  | .seq a r, b, s => (runRE a b s).flatMap (fun p => runRE r p.1 p.2)
  | .alt a r, b, s => runRE a b s ++ runRE r b s
  | .plus1 rs, _, s => runPlus rs s

/-- Truthiness of `re.match(pattern, s)`: a match object is returned
(and is truthy) iff the pattern matches some prefix
of `s` starting at position 0, i.e. iff the matcher reaches any state. -/
def reMatch (r : RE) (s : String) : Bool :=
  !(runRE r true s.data).isEmpty

/-- The class `[a-zA-Z0-9]`. -/
def alnumRanges : List (Char × Char) := [('a', 'z'), ('A', 'Z'), ('0', '9')]

/-- The class `[a-zA-Z0-9-]`. -/
def alnumHyphenRanges : List (Char × Char) :=
  [('a', 'z'), ('A', 'Z'), ('0', '9'), ('-', '-')]

/-- The class `\d` (the script only ever applies it to ASCII subjects,
so we model it as the ASCII decimal digits). -/
def digitRanges : List (Char × Char) := [('0', '9')]

/-- Translation of the Issue Number pattern `^#?\d+$`. -/
def issueNumberRE : RE :=
  .seq .caret (.seq (opt (.lit '#')) (.seq (.plus1 digitRanges) .dollar))

/-- Translation of the GitHub Username pattern
`^[a-zA-Z0-9]([a-zA-Z0-9-]\x7b0,37\x7d[a-zA-Z0-9])?$`. -/
def githubUsernameRE : RE :=
  .seq .caret (.seq (.cls alnumRanges)
    (.seq (opt (.seq (repMax 37 (.cls alnumHyphenRanges)) (.cls alnumRanges)))
      .dollar))

/-- Translation of the Bot Username pattern
`^[a-zA-Z0-9]([a-zA-Z0-9-]\x7b0,37\x7d[a-zA-Z0-9])?\[bot\]$`. -/
def botUsernameRE : RE :=
  .seq .caret (.seq (.cls alnumRanges)
    (.seq (opt (.seq (repMax 37 (.cls alnumHyphenRanges)) (.cls alnumRanges)))
      (.seq (.lit '[') (.seq (.lit 'b') (.seq (.lit 'o') (.seq (.lit 't')
        (.seq (.lit ']') .dollar)))))))

/-- Translation of the GitHub App ID pattern `^\d+$`. -/
def appIdRE : RE :=
  .seq .caret (.seq (.plus1 digitRanges) .dollar)

/-! Section: the literal example tables of the script. -/

/-- The separator the script prints: 60 copies of the `=` character. -/
def sep : String := String.mk (List.replicate 60 '=')

/-- Valid examples of the Issue Number case. -/
def issueNumberValid : List String := ["1", "123", "#1", "#123", "9999"]

/-- Invalid examples of the Issue Number case. -/
def issueNumberInvalid : List String :=
  ["", "#", "abc", "#abc", "12a", "12 34", "12.34", "-12"]

/-- Valid examples of the GitHub Username case; the last is
`'a' + '1'*37 + 'b'` (39 chars, max valid). -/
def githubUsernameValid : List String :=
  ["copilot", "user123", "my-bot-name", "ABC", "a", "user-name-with-hyphens",
   "a" ++ String.mk (List.replicate 37 '1') ++ "b"]

/-- Invalid examples of the GitHub Username case; the last is
`'a' + '1'*38 + 'b'` (40 chars, too long). -/
def githubUsernameInvalid : List String :=
  ["", "-invalid", "invalid-", "user name", "user@name", "user.name",
   "user_name", "--invalid", "a" ++ String.mk (List.replicate 38 '1') ++ "b"]

/-- Valid examples of the Bot Username case. -/
def botUsernameValid : List String :=
  ["copilot[bot]", "my-app[bot]", "github-actions[bot]", "a[bot]"]

/-- Invalid examples of the Bot Username case. -/
def botUsernameInvalid : List String :=
  ["", "copilot", "[bot]", "copilot[bot", "copilot bot]", "copilot-[bot]",
   "-copilot[bot]", "copilot[bot]-", "copilot[BOT]"]

/-- Valid examples of the GitHub App ID case. -/
def appIdValid : List String := ["1", "12345", "999999", "0"]

/-- Invalid examples of the GitHub App ID case. -/
def appIdInvalid : List String :=
  ["", "abc", "123abc", "abc123", "12.34", "-123", "12 34", "#123"]

/-! Section: the functions of the script. -/

/-- The line printed for one entry of the valid-input loop: PASS when the
regex matched, FAIL otherwise (`all_passed` is cleared on FAIL). -/
def validLine (s : String) (m : Bool) : String :=
  if m then "  ✓ '" ++ s ++ "' - PASS"
  else "  ✗ '" ++ s ++ "' - FAIL (should match)"

/-- The line printed for one entry of the invalid-input loop: PASS when
the regex did not match, FAIL otherwise. -/
def invalidLine (s : String) (m : Bool) : String :=
  if m then "  ✗ '" ++ s ++ "' - FAIL (should not match)"
  else "  ✓ '" ++ s ++ "' - PASS (correctly rejected)"

/-- The `for test_input in valid_inputs` loop of `test_pattern`: threads
the printed lines and the `all_passed` flag through the list; a failure
clears the flag but iteration continues. -/
def validLoop (pat : RE) (inputs : List String) (lines : List String)
    (allPassed : Bool) : List String × Bool :=
  match inputs with
  | [] => (lines, allPassed)
  | s :: rest =>
    let m := reMatch pat s
    validLoop pat rest (lines ++ [validLine s m]) (allPassed && m)

/-- The `for test_input in invalid_inputs` loop of `test_pattern`. -/
def invalidLoop (pat : RE) (inputs : List String) (lines : List String)
    (allPassed : Bool) : List String × Bool :=
  match inputs with
  | [] => (lines, allPassed)
  | s :: rest =>
    let m := reMatch pat s
    invalidLoop pat rest (lines ++ [invalidLine s m]) (allPassed && !m)

/-- The function `test_pattern(name, pattern, valid_inputs, invalid_inputs)`
of the script: returns
the list of printed lines (one element per `print` call) together with
the returned boolean.  The compiled regex is passed as `pat`, the raw
pattern string (printed in the header) as `patStr`. -/
def test_pattern (name patStr : String) (pat : RE)
    (validInputs invalidInputs : List String) : List String × Bool :=
  let vres := validLoop pat validInputs [] true
  let ires := invalidLoop pat invalidInputs [] vres.2
  (("\n" ++ sep) ::
     ("Testing: " ++ name) ::
     ("Pattern: " ++ patStr) ::
     sep ::
     "\n✓ Valid inputs (should match):" ::
     (vres.1 ++ "\n✗ Invalid inputs (should NOT match):" :: ires.1),
   ires.2)

/-- Process environment visible to a Python script: command-line
arguments and environment variables.  The script reads neither. -/
structure OSEnv : Type where
  args : List String
  env : List (String × String)

/-- The function `main` of the script, run to completion: returns every
printed line (in order) and
the value returned by `main()`, which `sys.exit` turns into the process
exit status.  The `OSEnv` argument records that the process has an
environment; the script never consults it. -/
def main_run (_os : OSEnv) : List String × Nat :=
  let t1 := test_pattern "Issue Number Pattern" "^#?\\d+$"
    issueNumberRE issueNumberValid issueNumberInvalid
  let t2 := test_pattern "GitHub Username Pattern"
    "^[a-zA-Z0-9]([a-zA-Z0-9-]\x7b0,37\x7d[a-zA-Z0-9])?$"
    githubUsernameRE githubUsernameValid githubUsernameInvalid
  let t3 := test_pattern "Bot Username Pattern"
    "^[a-zA-Z0-9]([a-zA-Z0-9-]\x7b0,37\x7d[a-zA-Z0-9])?\\[bot\\]$"
    botUsernameRE botUsernameValid botUsernameInvalid
  let t4 := test_pattern "GitHub App ID Pattern" "^\\d+$"
    appIdRE appIdValid appIdInvalid
  let allTestsPassed := true && t1.2 && t2.2 && t3.2 && t4.2
  ("Issue Template Validation Pattern Tests" :: sep ::
     (t1.1 ++ t2.1 ++ t3.1 ++ t4.1 ++
      ["\n" ++ sep,
       if allTestsPassed then "✓ ALL TESTS PASSED" else "✗ SOME TESTS FAILED",
       sep]),
   if allTestsPassed then 0 else 1)

/-! Section: declarative matching semantics.

`Derives r b s b' s'` is the declarative counterpart of `runRE`: starting
with at-start flag `b` and subject suffix `s`, the regex `r` can match a
prefix of `s` leaving flag `b'` and suffix `s'`.  It is the specification
against which the executable matcher is proved sound and complete. -/
inductive Derives : RE → Bool → List Char → Bool → List Char → Prop where
  | eps {b : Bool} {s : List Char} : Derives .eps b s b s
  | lit {c : Char} {b : Bool} {s : List Char} : Derives (.lit c) b (c :: s) false s
  | cls {rs : List (Char × Char)} {c : Char} {b : Bool} {s : List Char} :
      inClass rs c = true → Derives (.cls rs) b (c :: s) false s
  | caret {s : List Char} : Derives .caret true s true s
  | dollarNil {b : Bool} : Derives .dollar b [] b []
  | dollarNewline {b : Bool} : Derives .dollar b ['\n'] b ['\n']
  | seq {a r : RE} {b b₁ b₂ : Bool} {s s₁ s₂ : List Char} :
      Derives a b s b₁ s₁ → Derives r b₁ s₁ b₂ s₂ → Derives (.seq a r) b s b₂ s₂
  | altL {a r : RE} {b b' : Bool} {s s' : List Char} :
      Derives a b s b' s' → Derives (.alt a r) b s b' s'
  | altR {a r : RE} {b b' : Bool} {s s' : List Char} :
      Derives r b s b' s' → Derives (.alt a r) b s b' s'
  | plusOne {rs : List (Char × Char)} {c : Char} {b : Bool} {s : List Char} :
      inClass rs c = true → Derives (.plus1 rs) b (c :: s) false s
  | plusMore {rs : List (Char × Char)} {c : Char} {b b' : Bool} {s s' : List Char} :
      inClass rs c = true → Derives (.plus1 rs) false s b' s' →
      Derives (.plus1 rs) b (c :: s) b' s'

/-- Every state `runPlus` reaches is derivable for the `plus1` regex,
whatever the incoming at-start flag. -/
theorem runPlus_sound (rs : List (Char × Char)) (s : List Char) :
    ∀ b' s', (b', s') ∈ runPlus rs s →
      ∀ b, Derives (.plus1 rs) b s b' s' := by
  induction s with
  | nil => intro b' s' h; simp [runPlus] at h
  | cons d rest ih =>
    intro b' s' h b
    by_cases hc : inClass rs d = true
    · rw [runPlus, if_pos hc] at h
      rcases List.mem_cons.mp h with heq | h
      · rw [Prod.mk.injEq] at heq
        obtain ⟨rfl, rfl⟩ := heq
        exact .plusOne hc
      · exact .plusMore hc (ih _ _ h false)
    · simp [runPlus, hc] at h

/-- Every state the executable matcher reaches is derivable. -/
theorem runRE_sound (r : RE) (b : Bool) (s : List Char) :
    ∀ b' s', (b', s') ∈ runRE r b s → Derives r b s b' s' := by
  induction r, b, s using runRE.induct with
  | case1 b s =>
    intro b' s' h
    simp only [runRE, List.mem_singleton, Prod.mk.injEq] at h
    obtain ⟨rfl, rfl⟩ := h
    exact .eps
  | case2 c x => intro b' s' h; simp [runRE] at h
  | case3 x d rest =>
    intro b' s' h
    simp [runRE] at h
    obtain ⟨rfl, rfl⟩ := h
    exact .lit
  | case4 c x d rest hne => intro b' s' h; simp [runRE, hne] at h
  | case5 rs x => intro b' s' h; simp [runRE] at h
  | case6 rs x d rest hc =>
    intro b' s' h
    simp [runRE, hc] at h
    obtain ⟨rfl, rfl⟩ := h
    exact .cls hc
  | case7 rs x d rest hc => intro b' s' h; simp [runRE, hc] at h
  | case8 s =>
    intro b' s' h
    simp [runRE] at h
    obtain ⟨rfl, rfl⟩ := h
    exact .caret
  | case9 b s hb =>
    intro b' s' h
    simp only [Bool.not_eq_true] at hb
    simp [runRE, hb] at h
  | case10 b s hcond =>
    intro b' s' h
    rcases hcond with rfl | rfl
    · simp [runRE] at h
      obtain ⟨rfl, rfl⟩ := h
      exact .dollarNil
    · simp [runRE] at h
      obtain ⟨rfl, rfl⟩ := h
      exact .dollarNewline
  | case11 b s hcond => intro b' s' h; simp [runRE, if_neg hcond] at h
  | case12 a r b s iha ihr =>
    intro b' s' h
    simp only [runRE, List.mem_flatMap] at h
    obtain ⟨⟨b₁, s₁⟩, h₁, h₂⟩ := h
    exact .seq (iha _ _ h₁) (ihr (b₁, s₁) _ _ h₂)
  | case13 a r b s iha ihr =>
    intro b' s' h
    simp only [runRE, List.mem_append] at h
    rcases h with h | h
    · exact .altL (iha _ _ h)
    · exact .altR (ihr _ _ h)
  | case14 rs x =>
    intro b' s' h
    rw [runRE] at h
    exact runPlus_sound rs _ b' s' h x

/-- Every derivable state is reached by the executable matcher. -/
theorem runRE_complete {r : RE} {b b' : Bool} {s s' : List Char}
    (h : Derives r b s b' s') : (b', s') ∈ runRE r b s := by
  induction h with
  | eps => simp [runRE]
  | lit => simp [runRE]
  | cls hc => simp [runRE, hc]
  | caret => simp [runRE]
  | dollarNil => simp [runRE]
  | dollarNewline => simp [runRE]
  | seq h₁ h₂ ih₁ ih₂ =>
    simp only [runRE, List.mem_flatMap]
    exact ⟨_, ih₁, ih₂⟩
  | altL h ih => simp only [runRE, List.mem_append]; exact Or.inl ih
  | altR h ih => simp only [runRE, List.mem_append]; exact Or.inr ih
  | plusOne hc => simp [runRE, runPlus, hc]
  | plusMore hc h ih =>
    simp only [runRE] at ih ⊢
    rw [runPlus, if_pos hc]
    exact List.mem_cons_of_mem _ ih

/-- A derivation consumes an initial segment of the subject: the
remaining suffix `s'` is `s` minus some consumed front part. -/
theorem Derives.exists_consumed {r : RE} {b b' : Bool} {s s' : List Char}
    (h : Derives r b s b' s') : ∃ t, t ++ s' = s := by
  induction h with
  | eps => exact ⟨[], rfl⟩
  | lit => exact ⟨[_], rfl⟩
  | cls _ => exact ⟨[_], rfl⟩
  | caret => exact ⟨[], rfl⟩
  | dollarNil => exact ⟨[], rfl⟩
  | dollarNewline => exact ⟨[], rfl⟩
  | seq h₁ h₂ ih₁ ih₂ =>
    obtain ⟨t₁, rfl⟩ := ih₁
    obtain ⟨t₂, rfl⟩ := ih₂
    exact ⟨t₁ ++ t₂, List.append_assoc t₁ t₂ _⟩
  | altL _ ih => exact ih
  | altR _ ih => exact ih
  | plusOne _ => exact ⟨[_], rfl⟩
  | plusMore _ _ ih =>
    obtain ⟨t, rfl⟩ := ih
    exact ⟨_ :: t, rfl⟩

/-! Section: characterization of the report loops. -/

/-- The valid-input loop appends one report line per example and ANDs
the flag with each per-example match result. -/
theorem validLoop_eq (pat : RE) (inputs lines : List String) (acc : Bool) :
    validLoop pat inputs lines acc =
      (lines ++ inputs.map (fun s => validLine s (reMatch pat s)),
       acc && inputs.all (fun s => reMatch pat s)) := by
  induction inputs generalizing lines acc with
  | nil => simp [validLoop]
  | cons s rest ih =>
    simp [validLoop, ih, Bool.and_assoc]

/-- The invalid-input loop appends one report line per example and ANDs
the flag with each per-example non-match result. -/
theorem invalidLoop_eq (pat : RE) (inputs lines : List String) (acc : Bool) :
    invalidLoop pat inputs lines acc =
      (lines ++ inputs.map (fun s => invalidLine s (reMatch pat s)),
       acc && inputs.all (fun s => !reMatch pat s)) := by
  induction inputs generalizing lines acc with
  | nil => simp [invalidLoop]
  | cons s rest ih =>
    simp [invalidLoop, ih, Bool.and_assoc]

/-! Section: the claims. -/

/-- C1: running `main` on the four shipped pattern cases with their
literal example tables yields exit code 0; there are 20 valid and 34
invalid examples, every valid example matches its case's pattern from
the start of the string, and every invalid example does not. -/
theorem main_run_on_shipped_tables :
    (main_run ⟨[], []⟩).2 = 0 ∧
    issueNumberValid.length + githubUsernameValid.length +
      botUsernameValid.length + appIdValid.length = 20 ∧
    issueNumberInvalid.length + githubUsernameInvalid.length +
      botUsernameInvalid.length + appIdInvalid.length = 34 ∧
    issueNumberValid.all (fun s => reMatch issueNumberRE s) = true ∧
    issueNumberInvalid.all (fun s => !reMatch issueNumberRE s) = true ∧
    githubUsernameValid.all (fun s => reMatch githubUsernameRE s) = true ∧
    githubUsernameInvalid.all (fun s => !reMatch githubUsernameRE s) = true ∧
    botUsernameValid.all (fun s => reMatch botUsernameRE s) = true ∧
    botUsernameInvalid.all (fun s => !reMatch botUsernameRE s) = true ∧
    appIdValid.all (fun s => reMatch appIdRE s) = true ∧
    appIdInvalid.all (fun s => !reMatch appIdRE s) = true := by
  decide

/-- C2: `test_pattern` returns true iff every valid example matches the
pattern anchored at the start and every invalid example does not, for
every name, pattern and pair of example lists. -/
theorem test_pattern_true_iff (name patStr : String) (pat : RE)
    (validInputs invalidInputs : List String) :
    (test_pattern name patStr pat validInputs invalidInputs).2 = true ↔
      ((∀ s ∈ validInputs, reMatch pat s = true) ∧
       (∀ s ∈ invalidInputs, reMatch pat s = false)) := by
  simp [test_pattern, validLoop_eq, invalidLoop_eq, List.all_eq_true]

/-- C3: `main` evaluates all four pattern cases, ANDs the four booleans,
and returns exit status 0 when the conjunction holds and 1 otherwise. -/
theorem main_run_exit_code (os : OSEnv) :
    (main_run os).2 =
      (if ((test_pattern "Issue Number Pattern" "^#?\\d+$"
              issueNumberRE issueNumberValid issueNumberInvalid).2 &&
            (test_pattern "GitHub Username Pattern"
              "^[a-zA-Z0-9]([a-zA-Z0-9-]\x7b0,37\x7d[a-zA-Z0-9])?$"
              githubUsernameRE githubUsernameValid githubUsernameInvalid).2 &&
            (test_pattern "Bot Username Pattern"
              "^[a-zA-Z0-9]([a-zA-Z0-9-]\x7b0,37\x7d[a-zA-Z0-9])?\\[bot\\]$"
              botUsernameRE botUsernameValid botUsernameInvalid).2 &&
            (test_pattern "GitHub App ID Pattern" "^\\d+$"
              appIdRE appIdValid appIdInvalid).2)
       then 0 else 1) := by
  rfl

/-- C4: the evaluator's per-string check is anchored at the start of the
string: `re.match` succeeds iff some prefix of the subject, starting at
position 0, is matched by the pattern (leaving the rest unconsumed). -/
theorem reMatch_iff_matches_from_start (r : RE) (s : String) :
    reMatch r s = true ↔
      ∃ t u b', s.data = t ++ u ∧ Derives r true s.data b' u := by
  constructor
  · intro h
    have hne : runRE r true s.data ≠ [] := by
      simpa [reMatch] using h
    obtain ⟨⟨b', u⟩, hmem⟩ := List.exists_mem_of_ne_nil _ hne
    have hd := runRE_sound r true s.data b' u hmem
    obtain ⟨t, ht⟩ := hd.exists_consumed
    exact ⟨t, u, b', ht.symm, hd⟩
  · rintro ⟨t, u, b', _, hd⟩
    have hmem := runRE_complete hd
    have hne : runRE r true s.data ≠ [] := fun hnil => by
      rw [hnil] at hmem
      exact absurd hmem (List.not_mem_nil _)
    simpa [reMatch] using hne

/-- C5: the 39-character string `a` + 37 × `1` + `b` matches the GitHub
Username pattern, while the 40-character string `a` + 38 × `1` + `b`
does not. -/
theorem githubUsername_length_boundary :
    ("a" ++ String.mk (List.replicate 37 '1') ++ "b").length = 39 ∧
    reMatch githubUsernameRE
      ("a" ++ String.mk (List.replicate 37 '1') ++ "b") = true ∧
    ("a" ++ String.mk (List.replicate 38 '1') ++ "b").length = 40 ∧
    reMatch githubUsernameRE
      ("a" ++ String.mk (List.replicate 38 '1') ++ "b") = false := by
  decide

/-- C6: the Bot Username pattern's literal `[bot]` suffix is matched
case-sensitively: `copilot[bot]` matches but `copilot[BOT]` does not. -/
theorem botUsername_suffix_case_sensitive :
    reMatch botUsernameRE "copilot[bot]" = true ∧
    reMatch botUsernameRE "copilot[BOT]" = false := by
  decide

/-- C7: a mismatched example is non-fatal: when some valid example fails
to match or some invalid example matches, `test_pattern` still produces
its full report — one line per example in both lists, plus the six
header lines — and merely returns `false`. -/
theorem test_pattern_mismatch_nonfatal (name patStr : String) (pat : RE)
    (validInputs invalidInputs : List String)
    (h : (∃ s ∈ validInputs, reMatch pat s = false) ∨
         (∃ s ∈ invalidInputs, reMatch pat s = true)) :
    (test_pattern name patStr pat validInputs invalidInputs).2 = false ∧
    (test_pattern name patStr pat validInputs invalidInputs).1.length =
      6 + (validInputs.length + invalidInputs.length) := by
  have hres : (test_pattern name patStr pat validInputs invalidInputs).2 =
      (validInputs.all (fun s => reMatch pat s) &&
       invalidInputs.all (fun s => !reMatch pat s)) := by
    simp [test_pattern, validLoop_eq, invalidLoop_eq]
  constructor
  · rw [hres]
    rcases h with ⟨s, hs, hm⟩ | ⟨s, hs, hm⟩
    · have hall : validInputs.all (fun s => reMatch pat s) = false := by
        rw [List.all_eq_false]
        exact ⟨s, hs, by simp [hm]⟩
      simp [hall]
    · have hall : invalidInputs.all (fun s => !reMatch pat s) = false := by
        rw [List.all_eq_false]
        exact ⟨s, hs, by simp [hm]⟩
      simp [hall]
  · simp [test_pattern, validLoop_eq, invalidLoop_eq]
    omega

/-- Witness for C7 at a concrete mismatching input. -/
theorem test_pattern_mismatch_nonfatal_witness :
    (test_pattern "GitHub App ID Pattern" "^\\d+$" appIdRE ["abc"] ["5"]).2
        = false ∧
    (test_pattern "GitHub App ID Pattern" "^\\d+$" appIdRE ["abc"] ["5"]).1.length
        = 6 + (1 + 1) :=
  test_pattern_mismatch_nonfatal "GitHub App ID Pattern" "^\\d+$" appIdRE
    ["abc"] ["5"] (Or.inl ⟨"abc", by decide, by decide⟩)

/-- C8: the script is deterministic and reads neither arguments nor
environment variables: any two executions produce identical printed
output and identical exit code. -/
theorem main_run_deterministic (os₁ os₂ : OSEnv) :
    main_run os₁ = main_run os₂ := rfl

/-- C9: because `$` also succeeds just before a single trailing newline,
the App ID pattern `^\d+$` counts `"123\n"` as a match even though the
match leaves the final newline unconsumed. -/
theorem appId_trailing_newline_match :
    reMatch appIdRE "123\n" = true ∧
    (false, ['\n']) ∈ runRE appIdRE true ("123\n").data := by
  decide

/-- C10: the `name` argument does not influence the boolean that
`test_pattern` returns — it only appears in the printed report. -/
theorem test_pattern_name_noninterference (n₁ n₂ patStr : String) (pat : RE)
    (validInputs invalidInputs : List String) :
    (test_pattern n₁ patStr pat validInputs invalidInputs).2 =
      (test_pattern n₂ patStr pat validInputs invalidInputs).2 := rfl

end TemplateValidation
